import Mathlib

/-!
Shallow embedding of the VCP trading platform pattern-detection engine
(`backend/app/services/vcp_scanner.py`, `breakout_finder.py`,
`data_fetcher.py`, `config.py`, `models/stock.py`).

Prices, volumes and percentages are modelled as exact rationals (the source
uses Python floats over pandas frames); a pandas DataFrame of OHLCV rows is
modelled as a `List Bar` in time-ascending order, and positional integer
labels stand for the frame's index.  Python `round(x, nd)` is modelled by
`pyRound` (round half to even).  Pandas windows that would be NaN because of
an incomplete rolling window are modelled with `Option` exactly where the
source can reach them (`check_liquidity_filter`); everywhere else the source
guards the window with an explicit length check before using it, and the
embedding computes the (then well-defined) window mean directly.
-/

set_option maxRecDepth 20000

/- `Rat.add`, `Rat.sub`, `Rat.mul` and `Rat.inv` are shipped `@[irreducible]`;
they are restored to normal transparency here so that concrete witness
computations can be settled by `decide`. -/
attribute [local semireducible] Rat.add Rat.sub Rat.mul Rat.inv List.merge List.mergeSort

/-- One OHLCV row of a price DataFrame: open, high, low, close, volume. -/
structure Bar where
  o : ℚ
  h : ℚ
  l : ℚ
  c : ℚ
  v : ℚ
  deriving DecidableEq, Repr

instance : Inhabited Bar := ⟨⟨0, 0, 0, 0, 0⟩⟩

/-- A price series (the engine only ever reads it column-wise). -/
abbrev Series := List Bar

def highs (df : Series) : List ℚ := df.map Bar.h

def lows (df : Series) : List ℚ := df.map Bar.l

def closes (df : Series) : List ℚ := df.map Bar.c

def volumes (df : Series) : List ℚ := df.map Bar.v

/-- `xs.iloc[-k]` (positional indexing from the end, defaulting to 0 when out
of range; the source only evaluates it on guarded, long-enough series). -/
def negIdx (xs : List ℚ) (k : ℕ) : ℚ := xs.getD (xs.length - k) 0

/-- `xs.iloc[-a:-b]` (with `b = 0` meaning `xs.iloc[-a:]`), with pandas
clipping at the front for short lists. -/
def ilocSlice (xs : List ℚ) (a b : ℕ) : List ℚ :=
  let ys := xs.take (xs.length - b)
  ys.drop (ys.length - (a - b))

/-- The last `n` elements of a list (all of it when `n ≥ length`). -/
def lastN (xs : List ℚ) (n : ℕ) : List ℚ := xs.drop (xs.length - n)

/-- Arithmetic mean of a list (0 for the empty list; the source only takes
means of non-empty slices). -/
def listMean (xs : List ℚ) : ℚ := xs.sum / xs.length

/-- `max` of a list with 0 for the empty list (the source only takes the max
of slices it has guarded to be non-empty). -/
def maxD : List ℚ → ℚ
  | [] => 0
  | x :: xs => xs.foldl max x

/-- `min` of a list with 0 for the empty list. -/
def minD : List ℚ → ℚ
  | [] => 0
  | x :: xs => xs.foldl min x

/-- `xs.rolling(w).mean().iloc[-k]`: the mean of the `w` elements ending at
position `length - k`.  Only evaluated by the source where the window is
full. -/
def rollMeanNeg (xs : List ℚ) (w k : ℕ) : ℚ :=
  listMean (lastN (xs.take (xs.length + 1 - k)) w)

/-- `xs.rolling(w).mean().iloc[-1]` with pandas NaN semantics: `none` when
fewer than `w` elements are available. -/
def smaLastOpt (xs : List ℚ) (w : ℕ) : Option ℚ :=
  if xs.length < w then none else some (listMean (lastN xs w))

/-- Floor of a rational, written explicitly over the numerator and
denominator so that concrete instances reduce. -/
def ratFloor (q : ℚ) : ℤ := q.num / q.den

/-- Round half to even to an integer (the rounding Python `round` uses). -/
def roundHalfEven (q : ℚ) : ℤ :=
  let n := ratFloor q
  let frac := q - n
  if frac < 1 / 2 then n
  else if 1 / 2 < frac then n + 1
  else if n % 2 = 0 then n else n + 1

/-- Python `round(q, nd)`. -/
def pyRound (q : ℚ) (nd : ℕ) : ℚ := (roundHalfEven (q * 10 ^ nd) : ℚ) / 10 ^ nd

/-! ## Configuration (`config.py`, `VCP_SETTINGS` / `BREAKOUT_SETTINGS`) -/

def min_market_cap : ℚ := 2000000000

def min_legs : ℕ := 3

def max_legs : ℕ := 5

def final_base_depth_max : ℚ := 15 / 100

def rs_percentile_min : ℚ := 70

def relative_volume_threshold : ℚ := 1

/-! ## Data models (`models/stock.py`), restricted to the fields the engine
computes.  Wall-clock fields (`detected_at`) are omitted; date strings are the
string of the positional index. -/

/-- One contraction leg of a VCP base (`models/stock.py`, `VCPLeg`). -/
structure VCPLeg where
  leg_number : ℕ
  start_date : String
  end_date : String
  high_price : ℚ
  low_price : ℚ
  pullback_depth : ℚ
  volume_ratio : ℚ
  duration_days : ℤ
  deriving DecidableEq, Repr

instance : Inhabited VCPLeg := ⟨⟨0, "", "", 0, 0, 0, 0, 0⟩⟩

/-- A detected VCP setup (`models/stock.py`, `VCPSetup`). -/
structure VCPSetup where
  symbol : String
  stock_name : Option String
  current_price : ℚ
  legs : List VCPLeg
  total_base_depth : ℚ
  base_duration_days : ℤ
  pivot_price : ℚ
  distance_from_pivot : ℚ
  relative_strength : ℚ
  rs_percentile : ℚ
  volume_dry_up : ℚ
  trend_alignment : Bool
  score : ℚ
  sma_20 : ℚ
  sma_50 : ℚ
  sma_200 : Option ℚ
  deriving DecidableEq, Repr

instance : Inhabited VCPSetup :=
  ⟨⟨"", none, 0, [], 0, 0, 0, 0, 0, 0, 0, false, 0, 0, 0, none⟩⟩

/-- A detected breakout (`models/stock.py`, `BreakoutCandidate`). -/
structure BreakoutCandidate where
  symbol : String
  stock_name : Option String
  breakout_date : String
  breakout_price : ℚ
  pivot_price : ℚ
  breakout_volume : ℤ
  relative_volume : ℚ
  price_change_pct : ℚ
  gap_up_pct : ℚ
  confirmation_score : ℚ
  vcp_setup : Option VCPSetup
  deriving DecidableEq, Repr

/-- The fundamental-info record a symbol may carry (`ticker.info`); the
engine reads only `marketCap` (defaulting to 0 when the key is missing) and
`longName`.  `none` stands for an unavailable record. -/
structure StockInfo where
  marketCap : Option ℚ
  longName : Option String
  deriving DecidableEq, Repr

/-! ## Relative-strength ranker (`data_fetcher.py`) -/

/-- `DataFetcher.calculate_relative_strength`: trailing `period`-bar return of
the stock minus that of the benchmark; 0 when either series is shorter than
`period`, and the raw stock return when the benchmark return is exactly 0. -/
def calculate_relative_strength (stock_df benchmark_df : Series) (period : ℕ) : ℚ :=
  if stock_df.length < period ∨ benchmark_df.length < period then 0
  else
    let stock_return := (negIdx (closes stock_df) 1 / negIdx (closes stock_df) period - 1) * 100
    let benchmark_return :=
      (negIdx (closes benchmark_df) 1 / negIdx (closes benchmark_df) period - 1) * 100
    if benchmark_return = 0 then stock_return else stock_return - benchmark_return

/-- `DataFetcher.calculate_rs_percentile`: percentile rank of the target
stock's relative strength within the cohort dictionary (the source sorts the
cohort values, then counts how many are strictly below the target). -/
def calculate_rs_percentile (stock_df : Series) (all_stocks_data : List (String × Series))
    (benchmark_df : Series) (period : ℕ) : ℚ :=
  let all_rs := all_stocks_data.map (fun p => calculate_relative_strength p.2 benchmark_df period)
  let stock_rs := calculate_relative_strength stock_df benchmark_df period
  if all_rs = [] then 50
  else
    let all_rs_sorted := all_rs.mergeSort (fun a b => decide (a ≤ b))
    let count_below := all_rs_sorted.countP (fun x => decide (x < stock_rs))
    ((count_below : ℚ) / all_rs.length) * 100

/-! ## Filter pipeline (`vcp_scanner.py`) -/

/-- The close-vs-20-SMA and RS-percentile clauses of the liquidity filter
(shared tail of both branches of the market-cap check).  When fewer than 20
bars exist the 20-SMA is NaN in pandas and the comparison `close <= NaN` is
False, so the SMA clause cannot fail. -/
def liquidity_after_mcap (df : Series) (rs_percentile : ℚ) : Bool × String :=
  let sma_fail :=
    match smaLastOpt (closes df) 20 with
    | some sma_20 => decide (negIdx (closes df) 1 ≤ sma_20)
    | none => false
  if sma_fail then (false, "Price below 20-SMA")
  else if rs_percentile < rs_percentile_min then (false, "RS percentile below 70")
  else (true, "Passed")

/-- `VCPScanner.check_liquidity_filter`: market cap (only when an info record
is present), close above the 20-SMA, and RS percentile at least 70. -/
def check_liquidity_filter (df : Series) (info : Option StockInfo) (rs_percentile : ℚ) :
    Bool × String :=
  match info with
  | some i =>
      if i.marketCap.getD 0 < min_market_cap then (false, "Market cap below threshold")
      else liquidity_after_mcap df rs_percentile
  | none => liquidity_after_mcap df rs_percentile

/-- `VCPScanner.check_uptrend_near_breakout`: at least 101 bars, current close
not above the trailing 100-bar high (current bar excluded), and within 7% of
it. -/
def check_uptrend_near_breakout (df : Series) : Bool × String :=
  if df.length < 101 then (false, "Insufficient data")
  else
    let current_close := negIdx (closes df) 1
    let range_high_100 := maxD (ilocSlice (highs df) 101 1)
    if range_high_100 < current_close then (false, "Already broken out")
    else
      let distance_pct := ((range_high_100 - current_close) / range_high_100) * 100
      if 7 < distance_pct then (false, "Too far from pivot")
      else (true, "Within range of pivot")

/-- `VCPScanner.check_higher_lows`: the 10/20/30-bar range lows must each be
strictly above the range low of the immediately preceding window of the same
length. -/
def check_higher_lows (df : Series) : Bool × String :=
  if df.length < 60 then (false, "Insufficient data")
  else
    let low_10_current := minD (ilocSlice (lows df) 10 0)
    let low_10_past := minD (ilocSlice (lows df) 20 10)
    let low_20_current := minD (ilocSlice (lows df) 20 0)
    let low_20_past := minD (ilocSlice (lows df) 40 20)
    let low_30_current := minD (ilocSlice (lows df) 30 0)
    let low_30_past := minD (ilocSlice (lows df) 60 30)
    if low_10_current ≤ low_10_past then (false, "10-day HL failed")
    else if low_20_current ≤ low_20_past then (false, "20-day HL failed")
    else if low_30_current ≤ low_30_past then (false, "30-day HL failed")
    else (true, "Higher lows confirmed")

/-- `VCPScanner.check_volume_contracting`: the 20-bar volume SMA one bar back
must be below its value at one of six past offsets; on success also reports
the dry-up percentage from the window maximum.  Within the 50-bar guard all
the rolling windows the source touches are full, so no NaN can arise. -/
def check_volume_contracting (df : Series) : Bool × ℚ :=
  if df.length < 50 then (false, 0)
  else
    let current_vol_sma := rollMeanNeg (volumes df) 20 2
    let comparison_points : List ℕ := [5, 10, 15, 20, 25, 30]
    let contractions :=
      (comparison_points.filter (fun offset =>
          decide (offset < df.length) &&
          decide (current_vol_sma < rollMeanNeg (volumes df) 20 (offset + 1)))).length
    if contractions = 0 then (false, 0)
    else if 30 < df.length then
      let max_past_vol := maxD ((List.range 30).map (fun j => rollMeanNeg (volumes df) 20 (j + 2)))
      if 0 < max_past_vol then (true, ((max_past_vol - current_vol_sma) / max_past_vol) * 100)
      else (true, 0)
    else (true, 0)

/-! ## Leg extractor (`VCPScanner.detect_vcp_legs`) -/

/-- A bar is a local maximum when a centered 5-bar rolling max equals its own
value; pandas leaves the first and last two positions NaN, so only positions
`2 ≤ i ≤ length - 3` can qualify. -/
def isLocalMax (xs : List ℚ) (i : ℕ) : Bool :=
  decide (2 ≤ i) && decide (i + 2 < xs.length) &&
  decide (maxD ((xs.drop (i - 2)).take 5) = xs.getD i 0)

/-- A bar is a local minimum when a centered 5-bar rolling min equals its own
value. -/
def isLocalMin (xs : List ℚ) (i : ℕ) : Bool :=
  decide (2 ≤ i) && decide (i + 2 < xs.length) &&
  decide (minD ((xs.drop (i - 2)).take 5) = xs.getD i 0)

def localMaxIndices (xs : List ℚ) : List ℕ := (List.range xs.length).filter (isLocalMax xs)

def localMinIndices (xs : List ℚ) : List ℕ := (List.range xs.length).filter (isLocalMin xs)

/-- Mean of the volume column over the inclusive positional range
`[a, b]` (`analysis_df.loc[high_idx:low_idx, volume].mean()`). -/
def meanSlice (xs : List ℚ) (a b : ℕ) : ℚ := listMean ((xs.drop a).take (b + 1 - a))

/-- The `while` loop of `detect_vcp_legs`: walk the local highs (all but the
last one) in order, pair each with the first local low after it, and accept
the pair as a leg when its pullback depth is strictly below the previous
accepted depth and strictly above 2%. -/
def legLoop (adf : Series) (low_indices : List ℕ) :
    List ℕ → ℕ → ℚ → List VCPLeg → List VCPLeg
  | [], _, _, legs => legs
  | high_idx :: rest, leg_number, prev_pullback_depth, legs =>
    if 5 ≤ leg_number then legs
    else
      match low_indices.filter (fun lo => decide (high_idx < lo)) with
      | [] => legs
      | low_idx :: _ =>
        let high_price := (highs adf).getD high_idx 0
        let low_price := (lows adf).getD low_idx 0
        let pullback_depth := ((high_price - low_price) / high_price) * 100
        if pullback_depth < prev_pullback_depth ∧ 2 < pullback_depth then
          let leg_volume := meanSlice (volumes adf) high_idx low_idx
          let prev_volume :=
            if 20 < high_idx then listMean (lastN ((volumes adf).take high_idx) 20)
            else leg_volume
          let leg : VCPLeg :=
            { leg_number := leg_number + 1
              start_date := toString high_idx
              end_date := toString low_idx
              high_price := pyRound high_price 2
              low_price := pyRound low_price 2
              pullback_depth := pyRound pullback_depth 2
              volume_ratio := pyRound (if 0 < prev_volume then leg_volume / prev_volume else 1) 2
              duration_days := (low_idx : ℤ) - (high_idx : ℤ) }
          legLoop adf low_indices rest (leg_number + 1) pullback_depth (legs ++ [leg])
        else
          legLoop adf low_indices rest leg_number prev_pullback_depth legs

/-- `VCPScanner.detect_vcp_legs`: restrict to the last 126 bars, find local
extrema, assemble progressively contracting legs, and report the total base
depth over the accepted legs (0 without legs). -/
def detect_vcp_legs (df : Series) : List VCPLeg × ℚ :=
  if df.length < 60 then ([], 0)
  else
    let analysis_df := df.drop (df.length - 126)
    let high_indices := localMaxIndices (highs analysis_df)
    let low_indices := localMinIndices (lows analysis_df)
    if high_indices.length < 2 ∨ low_indices.length < 2 then ([], 0)
    else
      let legs := legLoop analysis_df low_indices high_indices.dropLast 0 100 []
      let total_depth :=
        if legs = [] then 0
        else
          let overall_high := maxD (legs.map VCPLeg.high_price)
          let overall_low := minD (legs.map VCPLeg.low_price)
          ((overall_high - overall_low) / overall_high) * 100
      (legs, total_depth)

/-! ## VCP scorer (`VCPScanner.calculate_vcp_score`) -/

/-- The number of consecutive leg pairs whose pullback depth strictly
decreases. -/
def countContractions : List VCPLeg → ℕ
  | a :: b :: rest =>
      (if b.pullback_depth < a.pullback_depth then 1 else 0) + countContractions (b :: rest)
  | _ => 0

/-- `VCPScanner.calculate_vcp_score`: weighted sum of leg count, contraction
quality, base depth, volume dry-up, RS percentile and pivot proximity, capped
at 100 and rounded to one decimal. -/
def calculate_vcp_score (legs : List VCPLeg) (base_depth volume_dry_up rs_percentile
    distance_from_pivot : ℚ) : ℚ :=
  let leg_score := min ((legs.length : ℚ) * 5) 20
  let contraction_score :=
    if 2 ≤ legs.length then ((countContractions legs : ℚ) / ((legs.length : ℚ) - 1)) * 25
    else 0
  let depth_score :=
    if 10 ≤ base_depth ∧ base_depth ≤ 20 then max (20 - |base_depth - 125 / 10| * 2) 0
    else 0
  let vol_score := min (volume_dry_up / 2) 15
  let rs_score := min (rs_percentile / 10) 10
  let proximity_score :=
    if distance_from_pivot ≤ 5 then (10 : ℚ)
    else if distance_from_pivot ≤ 10 then 10 - (distance_from_pivot - 5)
    else 0
  let score := leg_score + contraction_score + depth_score + vol_score + rs_score + proximity_score
  pyRound (min score 100) 1

/-! ## Per-stock VCP scan (`VCPScanner.scan_stock`) -/

/-- The RS-percentile the individual scan feeds into the liquidity filter and
the scorer: `min(max(50 + rs, 0), 100)` ("simplified percentile"), or the
50.0 default when no benchmark is loaded. -/
def scan_stock_rs_percentile (df : Series) (benchmark : Option Series) : ℚ :=
  match benchmark with
  | none => 50
  | some bm => min (max (50 + calculate_relative_strength df bm 252) 0) 100

/-- `VCPScanner.scan_stock` as a pure function of the fetched data: the data
fetch itself (and its `None` result) is the collaborator's side; a fetch that
returned no frame simply never reaches this function. -/
def scan_stock (symbol : String) (df : Series) (info : Option StockInfo)
    (benchmark : Option Series) : Option VCPSetup :=
  if df.length < 100 then none
  else
    let rs_percentile := scan_stock_rs_percentile df benchmark
    if !(check_liquidity_filter df info rs_percentile).1 then none
    else if !(check_uptrend_near_breakout df).1 then none
    else if !(check_higher_lows df).1 then none
    else
      let vc := check_volume_contracting df
      if !vc.1 then none
      else
        let lb := detect_vcp_legs df
        if lb.1.length < min_legs then none
        else if final_base_depth_max * 100 < lb.2 then none
        else
          let current_price := negIdx (closes df) 1
          let sma_20 := rollMeanNeg (closes df) 20 1
          let sma_50 := rollMeanNeg (closes df) 50 1
          let sma_200 : Option ℚ :=
            if 200 ≤ df.length then some (rollMeanNeg (closes df) 200 1) else none
          let pivot_price := maxD (ilocSlice (highs df) 101 1)
          let distance_from_pivot := ((pivot_price - current_price) / pivot_price) * 100
          let rs :=
            match benchmark with
            | some bm => calculate_relative_strength df bm 252
            | none => 0
          some
            { symbol := symbol
              stock_name := some (match info with
                | some i => i.longName.getD symbol
                | none => symbol)
              current_price := pyRound current_price 2
              legs := lb.1
              total_base_depth := pyRound lb.2 2
              base_duration_days := (lb.1.map VCPLeg.duration_days).sum
              pivot_price := pyRound pivot_price 2
              distance_from_pivot := pyRound distance_from_pivot 2
              relative_strength := pyRound rs 2
              rs_percentile := pyRound rs_percentile 1
              volume_dry_up := pyRound vc.2 1
              trend_alignment := decide (sma_50 < sma_20 ∧ sma_20 < current_price)
              score := calculate_vcp_score lb.1 lb.2 vc.2 rs_percentile distance_from_pivot
              sma_20 := pyRound sma_20 2
              sma_50 := pyRound sma_50 2
              sma_200 := (sma_200.bind fun s => if s = 0 then none else some (pyRound s 2)) }

/-! ## Breakout detector (`breakout_finder.py`) -/

/-- `BreakoutFinder.check_breakout_conditions`: at least 101 bars, close
strictly above the trailing 100-bar high (current bar excluded), and relative
volume (with an explicit 0 fallback when the volume SMA is not positive) at
least the configured threshold.  Returns
`(is_breakout, relative_volume, pivot_price)`. -/
def check_breakout_conditions (df : Series) : Bool × ℚ × ℚ :=
  if df.length < 101 then (false, 0, 0)
  else
    let current_close := negIdx (closes df) 1
    let current_volume := negIdx (volumes df) 1
    let pivot_price := maxD (ilocSlice (highs df) 101 1)
    if current_close ≤ pivot_price then (false, 0, pivot_price)
    else
      let vol_sma_20 := rollMeanNeg (volumes df) 20 2
      let relative_volume := if 0 < vol_sma_20 then current_volume / vol_sma_20 else 0
      if relative_volume < relative_volume_threshold then (false, relative_volume, pivot_price)
      else (true, relative_volume, pivot_price)

/-- The true-range series used by `BreakoutFinder._calculate_atr`: row-wise
max of high−low, |high−prevClose| and |low−prevClose|; the first row has no
previous close (NaN), so its true range is just high−low (pandas row max
skips NaN). -/
def trueRangeList (df : Series) : List ℚ :=
  (List.range df.length).map (fun i =>
    let b := df.getD i default
    if i = 0 then b.h - b.l
    else
      let pc := (df.getD (i - 1) default).c
      max (b.h - b.l) (max |b.h - pc| |b.l - pc|))

/-- `BreakoutFinder.calculate_confirmation_score`: range width vs ATR, close
position in the bar range, gap-up and relative volume, each capped, summed and
capped at 100. -/
def calculate_confirmation_score (df : Series) (relative_volume : ℚ) : ℚ :=
  let current := df.getD (df.length - 1) default
  let previous := df.getD (df.length - 2) default
  let atr_14 := rollMeanNeg (trueRangeList df) 14 1
  let daily_range := current.h - current.l
  let range_score := if 0 < atr_14 then min ((daily_range / atr_14) * 10) 25 else 0
  let close_score := if 0 < daily_range then ((current.c - current.l) / daily_range) * 25 else 0
  let gap_pct := ((current.o - previous.c) / previous.c) * 100
  let gap_score := if 0 < gap_pct then min (gap_pct * 5) 25 else 0
  let vol_score := max (min ((relative_volume - 1) * (125 / 10)) 25) 0
  pyRound (min (range_score + close_score + gap_score + vol_score) 100) 1

/-- `BreakoutFinder.find_breakout` as a pure function of the fetched data. -/
def find_breakout (symbol : String) (df : Series) (info : Option StockInfo)
    (vcp_setup : Option VCPSetup) : Option BreakoutCandidate :=
  if df.length < 101 then none
  else
    let r := check_breakout_conditions df
    if !r.1 then none
    else
      let current := df.getD (df.length - 1) default
      let previous := df.getD (df.length - 2) default
      let breakout_price := current.c
      some
        { symbol := symbol
          stock_name := some (match info with
            | some i => i.longName.getD symbol
            | none => symbol)
          breakout_date := toString (df.length - 1)
          breakout_price := pyRound breakout_price 2
          pivot_price := pyRound r.2.2 2
          breakout_volume := ⌊current.v⌋
          relative_volume := pyRound r.2.1 2
          price_change_pct := pyRound (((breakout_price - previous.c) / previous.c) * 100) 2
          gap_up_pct := pyRound (((current.o - previous.c) / previous.c) * 100) 2
          confirmation_score := calculate_confirmation_score df r.2.1
          vcp_setup := vcp_setup }

/-! ## Concrete input series used as witnesses and counterexamples.
All of them are synthetic OHLCV series; each column is designed
independently, which the engine permits since it never cross-checks the
columns of a bar against each other. -/

/-- Highs for `c1df`: an increasing base with isolated spikes at positions
5, 15, 25 and 35, which are therefore exactly the 5-bar local maxima. -/
def c1h (i : ℕ) : ℚ := if i = 5 ∨ i = 15 ∨ i = 25 ∨ i = 35 then 100000 else 99000 + i

/-- Lows for `c1df`: an increasing base with isolated dips at positions 10,
20 and 30, which are therefore exactly the 5-bar local minima.  The dips are
chosen so that the three produced legs have raw pullback depths 10.004%,
10.001% and 2.004%. -/
def c1l (i : ℕ) : ℚ :=
  if i = 10 then 89996 else if i = 20 then 89999 else if i = 30 then 97996 else 99990 + i

def c1c (i : ℕ) : ℚ := 99500 + i

/-- 60-bar series on which the leg extractor produces three legs whose raw
depths 10.004 > 10.001 > 2.004 are strictly decreasing, but whose stored
(2-decimal rounded) depths are 10, 10 and 2. -/
def c1df : Series := (List.range 60).map (fun i => ⟨c1c i, c1h i, c1l i, c1c i, 1000⟩)

/-- 100-bar constant series (shorter than the 252-bar relative-strength
lookback, so its relative strength is 0). -/
def c2df : Series := (List.range 100).map (fun _ => ⟨100, 100, 100, 100, 100⟩)

/-- 100-bar constant benchmark. -/
def c2bm : Series := (List.range 100).map (fun _ => ⟨100, 100, 100, 100, 100⟩)

/-- Highs for the passing fixture `c4df`: increasing base with spikes of
10000 at positions 131, 141, 151 and 161 (inside the 126-bar leg window and
inside the 100-bar pivot window). -/
def c4h (i : ℕ) : ℚ := if i = 131 ∨ i = 141 ∨ i = 151 ∨ i = 161 then 10000 else 9000 + i

/-- Lows for `c4df`: increasing base with dips at 136, 146 and 156 giving
pullback depths 12%, 8% and 4% against the 10000 spikes. -/
def c4l (i : ℕ) : ℚ :=
  if i = 136 then 8800 else if i = 146 then 9200 else if i = 156 then 9600 else 9700 + i

/-- Closes for `c4df`: rising from 8000 so the 252-bar return is 22.5%, with
a final close of 9800, 2% below the 10000 pivot. -/
def c4c (i : ℕ) : ℚ := if i = 251 then 9800 else 8000 + 5 * i

/-- 252-bar series that passes every gate of the VCP scan: liquidity (no
info record, close above the 20-SMA, RS percentile 72.5), near-breakout
(2% below pivot), higher lows, contracting volume, and three legs of depths
12 > 8 > 4 with a 12% base. -/
def c4df : Series :=
  (List.range 252).map (fun i => ⟨c4c i, c4h i, c4l i, c4c i, 100000 - 100 * i⟩)

/-- Flat 252-bar benchmark (trailing return 0, so the stock's relative
strength equals its own trailing return). -/
def c4bm : Series := (List.range 252).map (fun _ => ⟨100, 100, 100, 100, 100⟩)

/-- The setup the scan produces on `c4df`. -/
def c4setup : VCPSetup := (scan_stock "X" c4df none (some c4bm)).getD default

/-- 101 identical bars: the current close equals the trailing 100-bar high,
so no breakout may be reported. -/
def c5df : Series := (List.range 101).map (fun _ => ⟨1, 1, 1, 1, 1⟩)

/-- 50 identical bars: shorter than both detectors' 101-bar requirement. -/
def c6df : Series := (List.range 50).map (fun _ => ⟨1, 1, 1, 1, 1⟩)

/-- 101 bars with zero volume throughout and a final close above the pivot:
the 20-bar volume SMA one bar back is 0, exercising the division-by-zero
fallback of the breakout check. -/
def c8df : Series :=
  (List.range 101).map (fun i => if i = 100 then ⟨2, 2, 1, 2, 0⟩ else ⟨1, 1, 1, 1, 0⟩)

/-- 20 bars with strictly increasing closes: the last close 20 is above the
20-bar SMA 10.5. -/
def c9df : Series := (List.range 20).map (fun i => ⟨1 + i, 1 + i, 1 + i, 1 + i, 1⟩)

/-- 60 bars with strictly increasing highs and lows: no interior bar is a
5-bar local extreme, so the leg extractor finds no swing structure. -/
def c10df : Series := (List.range 60).map (fun i => ⟨10 + i, 100 + i, 50 + i, 10 + i, 1⟩)

/-! ## Helper lemmas -/

theorem ratFloor_eq_floor (q : ℚ) : ratFloor q = ⌊q⌋ := Rat.floor_def.symm

theorem roundHalfEven_mono {a b : ℚ} (hab : a ≤ b) : roundHalfEven a ≤ roundHalfEven b := by
  unfold roundHalfEven
  simp only [ratFloor_eq_floor]
  have hf : ⌊a⌋ ≤ ⌊b⌋ := Int.floor_mono hab
  rcases eq_or_lt_of_le hf with heq | hlt
  · rw [← heq]
    split_ifs <;> first | omega | (exfalso; rw [← heq] at *; linarith)
  · have h1 : a < ⌊a⌋ + 1 := Int.lt_floor_add_one a
    split_ifs <;> omega

theorem roundHalfEven_intCast (n : ℤ) : roundHalfEven (n : ℚ) = n := by
  unfold roundHalfEven
  simp [ratFloor_eq_floor, Int.floor_intCast]

theorem pyRound_mono (nd : ℕ) {a b : ℚ} (hab : a ≤ b) : pyRound a nd ≤ pyRound b nd := by
  unfold pyRound
  have h1 : a * 10 ^ nd ≤ b * 10 ^ nd :=
    mul_le_mul_of_nonneg_right hab (by positivity)
  have h2 := roundHalfEven_mono h1
  gcongr

theorem pyRound_intCast (n : ℤ) (nd : ℕ) : pyRound (n : ℚ) nd = n := by
  unfold pyRound
  have : ((n : ℚ) * 10 ^ nd) = ((n * 10 ^ nd : ℤ) : ℚ) := by push_cast; ring
  rw [this, roundHalfEven_intCast]
  push_cast
  rw [mul_div_assoc]
  rw [div_self (by positivity), mul_one]

theorem pyRound_two_two : pyRound 2 2 = 2 := by decide

theorem pyRound_fifteen_two : pyRound 15 2 = 15 := by decide

theorem pyRound_hundred_one : pyRound 100 1 = 100 := by decide

theorem pyRound_zero_one : pyRound 0 1 = 0 := by decide

theorem legLoop_length_le (adf : Series) (lows_idx : List ℕ) :
    ∀ (hs : List ℕ) (n : ℕ) (prev : ℚ) (acc : List VCPLeg), n ≤ 5 →
      (legLoop adf lows_idx hs n prev acc).length ≤ acc.length + (5 - n) := by
  intro hs
  induction hs with
  | nil => intro n prev acc hn; rw [legLoop]; omega
  | cons high_idx rest ih =>
    intro n prev acc hn
    simp only [legLoop]
    split
    · omega
    split
    · omega
    split
    · apply le_trans (ih (n + 1) _ _ (by omega))
      simp only [List.length_append, List.length_singleton]
      omega
    · exact ih n prev acc hn

theorem legLoop_invariant (adf : Series) (lows_idx : List ℕ) :
    ∀ (hs : List ℕ) (n : ℕ) (prev : ℚ) (acc : List VCPLeg),
      acc.Chain' (fun x y => y.pullback_depth ≤ x.pullback_depth) →
      (∀ leg ∈ acc, 2 ≤ leg.pullback_depth) →
      (∀ leg ∈ acc.getLast?, pyRound prev 2 ≤ leg.pullback_depth) →
      (legLoop adf lows_idx hs n prev acc).Chain'
          (fun x y => y.pullback_depth ≤ x.pullback_depth) ∧
        ∀ leg ∈ legLoop adf lows_idx hs n prev acc, 2 ≤ leg.pullback_depth := by
  intro hs
  induction hs with
  | nil => intro n prev acc hc hm _; rw [legLoop]; exact ⟨hc, hm⟩
  | cons high_idx rest ih =>
    intro n prev acc hc hm hlast
    simp only [legLoop]
    split
    · exact ⟨hc, hm⟩
    split
    · exact ⟨hc, hm⟩
    rename_i low_idx rest_lows hfilter
    split
    · rename_i hacc
      apply ih
      · rw [List.chain'_append]
        refine ⟨hc, List.chain'_singleton _, ?_⟩
        intro x hx y hy
        simp only [List.head?_cons, Option.mem_def, Option.some.injEq] at hy
        subst hy
        calc VCPLeg.pullback_depth _ = pyRound _ 2 := rfl
          _ ≤ pyRound prev 2 := pyRound_mono 2 hacc.1.le
          _ ≤ x.pullback_depth := hlast x hx
      · intro leg hleg
        rcases List.mem_append.mp hleg with hmem | hmem
        · exact hm leg hmem
        · simp only [List.mem_singleton] at hmem
          subst hmem
          calc (2 : ℚ) = pyRound 2 2 := pyRound_two_two.symm
            _ ≤ pyRound _ 2 := pyRound_mono 2 hacc.2.le
      · intro leg hleg
        rw [List.getLast?_concat, Option.mem_def, Option.some.injEq] at hleg
        subst hleg
        exact le_refl _
    · exact ih n prev acc hc hm hlast

/-- Helper: the extractor never returns more than 5 legs (the loop stops at
`leg_number < 5`). -/
theorem detect_vcp_legs_length_le (df : Series) : (detect_vcp_legs df).1.length ≤ 5 := by
  simp only [detect_vcp_legs]
  split
  · simp
  split
  · simp
  · simpa using legLoop_length_le _ _ _ 0 100 [] (by omega)

/-- C1 (amended): every leg sequence the Leg Extractor produces has
non-increasing stored pullback depths and every stored depth is at least 2.
The raw depths satisfy the strict contraction invariant, but the stored
`pullback_depth` field is rounded to 2 decimals, which can merge adjacent
depths and can round a depth just above 2% down to exactly 2. -/
theorem detect_vcp_legs_contraction (df : Series) :
    ((detect_vcp_legs df).1.Chain' fun x y => y.pullback_depth ≤ x.pullback_depth) ∧
      ∀ leg ∈ (detect_vcp_legs df).1, 2 ≤ leg.pullback_depth := by
  simp only [detect_vcp_legs]
  split
  · simp
  split
  · simp
  · simpa using legLoop_invariant _ _ _ 0 100 [] List.chain'_nil (by simp) (by simp)

/-- C1 witness: the first leg the extractor returns on `c1df` (written out
explicitly) satisfies the amended invariant. -/
theorem detect_vcp_legs_contraction_witness :
    2 ≤ VCPLeg.pullback_depth ⟨1, "5", "10", 100000, 89996, 10, 1, 5⟩ :=
  (detect_vcp_legs_contraction c1df).2 ⟨1, "5", "10", 100000, 89996, 10, 1, 5⟩
    (by decide)

/-- C1 counterexample: on `c1df` the stored depths are 10, 10 and 2, so they
are neither strictly decreasing nor all strictly above 2. -/
theorem detect_vcp_legs_strict_counterexample :
    (detect_vcp_legs c1df).1.map VCPLeg.pullback_depth = [10, 10, 2] ∧
      ¬((detect_vcp_legs c1df).1.Chain' fun x y => y.pullback_depth < x.pullback_depth) ∧
      ¬(∀ leg ∈ (detect_vcp_legs c1df).1, 2 < leg.pullback_depth) := by
  have hlegs : (detect_vcp_legs c1df).1 =
      [⟨1, "5", "10", 100000, 89996, 10, 1, 5⟩,
        ⟨2, "15", "20", 100000, 89999, 10, 1, 5⟩,
        ⟨3, "25", "30", 100000, 97996, 2, 1, 5⟩] := by decide
  refine ⟨by decide, ?_, ?_⟩
  · intro hchain
    rw [hlegs, List.chain'_cons] at hchain
    exact absurd hchain.1 (by norm_num)
  · intro hall
    exact absurd (hall ⟨3, "25", "30", 100000, 97996, 2, 1, 5⟩ (by decide)) (by norm_num)

/-- C10: when the 126-bar analysis window of a series of at least 60 bars
contains fewer than 2 local highs or fewer than 2 local lows, the extractor
returns the empty leg list and total depth 0. -/
theorem detect_vcp_legs_few_extrema (df : Series) (h60 : 60 ≤ df.length)
    (hex : (localMaxIndices (highs (df.drop (df.length - 126)))).length < 2 ∨
      (localMinIndices (lows (df.drop (df.length - 126)))).length < 2) :
    detect_vcp_legs df = ([], 0) := by
  simp only [detect_vcp_legs]
  rw [if_neg (by omega), if_pos hex]

/-- C10 witness: `c10df` has 60 bars, strictly increasing highs (hence no
local maxima at all), and the extractor returns `([], 0)` on it. -/
theorem detect_vcp_legs_few_extrema_witness :
    60 ≤ c10df.length ∧
      (localMaxIndices (highs (c10df.drop (c10df.length - 126)))).length < 2 ∧
      detect_vcp_legs c10df = ([], 0) :=
  ⟨by decide,
    by decide,
    detect_vcp_legs_few_extrema c10df (by decide)
      (Or.inl (by decide))⟩

/-- C3 (amended): the score is a pure function (a Lean function by
construction), it never exceeds 100, and it is non-negative — hence in
[0, 100] — whenever the volume dry-up and RS percentile inputs are
non-negative, as they always are when produced by the scan pipeline.  For
negative magnitudes of those two inputs the volume and RS terms are not
floored at 0, so the total can be negative. -/
theorem calculate_vcp_score_bounds (legs : List VCPLeg)
    (base_depth volume_dry_up rs_percentile distance_from_pivot : ℚ)
    (hv : 0 ≤ volume_dry_up) (hr : 0 ≤ rs_percentile) :
    0 ≤ calculate_vcp_score legs base_depth volume_dry_up rs_percentile distance_from_pivot ∧
      calculate_vcp_score legs base_depth volume_dry_up rs_percentile distance_from_pivot ≤
        100 := by
  have h1 : (0 : ℚ) ≤ min ((legs.length : ℚ) * 5) 20 := le_min (by positivity) (by norm_num)
  have h2 : (0 : ℚ) ≤ (if 2 ≤ legs.length
      then ((countContractions legs : ℚ) / ((legs.length : ℚ) - 1)) * 25 else 0) := by
    split_ifs with h
    · have h2a : (2 : ℚ) ≤ (legs.length : ℚ) := by exact_mod_cast h
      exact mul_nonneg (div_nonneg (by positivity) (by linarith)) (by norm_num)
    · exact le_refl 0
  have h3 : (0 : ℚ) ≤ (if 10 ≤ base_depth ∧ base_depth ≤ 20
      then max (20 - |base_depth - 125 / 10| * 2) 0 else 0) := by
    split_ifs
    · exact le_max_right _ _
    · exact le_refl 0
  have h4 : (0 : ℚ) ≤ min (volume_dry_up / 2) 15 := le_min (by linarith) (by norm_num)
  have h5 : (0 : ℚ) ≤ min (rs_percentile / 10) 10 := le_min (by linarith) (by norm_num)
  have h6 : (0 : ℚ) ≤ (if distance_from_pivot ≤ 5 then (10 : ℚ)
      else if distance_from_pivot ≤ 10 then 10 - (distance_from_pivot - 5) else 0) := by
    split_ifs <;> linarith
  simp only [calculate_vcp_score]
  constructor
  · calc (0 : ℚ) = pyRound 0 1 := pyRound_zero_one.symm
      _ ≤ _ := pyRound_mono 1 (le_min (by linarith) (by norm_num))
  · calc _ ≤ pyRound 100 1 := pyRound_mono 1 (min_le_right _ _)
      _ = 100 := pyRound_hundred_one

/-- C3 witness: at the zero inputs the score is within [0, 100]. -/
theorem calculate_vcp_score_bounds_witness :
    0 ≤ calculate_vcp_score [] 0 0 0 0 ∧ calculate_vcp_score [] 0 0 0 0 ≤ 100 :=
  calculate_vcp_score_bounds [] 0 0 0 0 le_rfl le_rfl

/-- C3 counterexample: with a volume dry-up of −100 and an RS percentile of
−100 the returned score is −60, outside [0, 100]; only the upper cap is
enforced by `min(score, 100)`. -/
theorem calculate_vcp_score_range_counterexample :
    calculate_vcp_score [] 0 (-100) (-100) 50 = -60 ∧
      ¬(0 ≤ calculate_vcp_score [] 0 (-100) (-100) 50 ∧
        calculate_vcp_score [] 0 (-100) (-100) 50 ≤ 100) :=
  ⟨by decide, by decide⟩

/-- C2 (amended): the RS percentile that `scan_stock` feeds into the
liquidity filter and the scorer is the clamp `min(max(50 + rs, 0), 100)` of
the benchmark-relative strength — a value in [0, 100] — and not a percentile
rank within the scanned cohort (the cohort data pre-fetched by
`scan_universe` is never consulted for it). -/
theorem scan_stock_rs_percentile_clamp (df : Series) (bm : Series) :
    scan_stock_rs_percentile df (some bm) =
      min (max (50 + calculate_relative_strength df bm 252) 0) 100 ∧
      0 ≤ scan_stock_rs_percentile df (some bm) ∧
      scan_stock_rs_percentile df (some bm) ≤ 100 := by
  refine ⟨rfl, ?_, ?_⟩
  · simp only [scan_stock_rs_percentile]
    exact le_min (le_max_right _ _) (by norm_num)
  · simp only [scan_stock_rs_percentile]
    exact min_le_right _ _

/-- C2 counterexample: on a 100-bar constant series the relative strength is
0 (series shorter than the 252-bar lookback), so the scan feeds 50 into the
filters, while the cohort percentile rank of the same symbol within the
one-element cohort containing itself is 0. -/
theorem scan_stock_rs_percentile_counterexample :
    scan_stock_rs_percentile c2df (some c2bm) = 50 ∧
      calculate_rs_percentile c2df [("A", c2df)] c2bm 252 = 0 ∧
      scan_stock_rs_percentile c2df (some c2bm) ≠
        calculate_rs_percentile c2df [("A", c2df)] c2bm 252 :=
  ⟨by decide, by decide, by decide⟩

/-- C7: `calculate_rs_percentile` returns exactly 50 on an empty cohort, and
otherwise the fraction of cohort members whose relative strength is strictly
below the target's, times 100 — a value in [0, 100].  (The sort the source
performs before counting does not change the count.) -/
theorem calculate_rs_percentile_spec (stock_df : Series)
    (all_stocks_data : List (String × Series)) (benchmark_df : Series) (period : ℕ) :
    calculate_rs_percentile stock_df all_stocks_data benchmark_df period =
      (if all_stocks_data = [] then 50
       else ((all_stocks_data.countP (fun p =>
            decide (calculate_relative_strength p.2 benchmark_df period <
              calculate_relative_strength stock_df benchmark_df period)) : ℚ) /
          all_stocks_data.length) * 100) ∧
      0 ≤ calculate_rs_percentile stock_df all_stocks_data benchmark_df period ∧
      calculate_rs_percentile stock_df all_stocks_data benchmark_df period ≤ 100 := by
  have heq : calculate_rs_percentile stock_df all_stocks_data benchmark_df period =
      (if all_stocks_data = [] then 50
       else ((all_stocks_data.countP (fun p =>
            decide (calculate_relative_strength p.2 benchmark_df period <
              calculate_relative_strength stock_df benchmark_df period)) : ℚ) /
          all_stocks_data.length) * 100) := by
    simp only [calculate_rs_percentile]
    by_cases hc : all_stocks_data = []
    · subst hc; simp
    · rw [if_neg (by simpa using hc), if_neg hc]
      have hperm := List.mergeSort_perm
        (all_stocks_data.map (fun p => calculate_relative_strength p.2 benchmark_df period))
        (fun a b => decide (a ≤ b))
      rw [hperm.countP_eq, List.countP_map, List.length_map]
      rfl
  refine ⟨heq, ?_, ?_⟩
  · rw [heq]
    split_ifs with hc
    · norm_num
    · positivity
  · rw [heq]
    split_ifs with hc
    · norm_num
    · have hcount : ((all_stocks_data.countP (fun p =>
            decide (calculate_relative_strength p.2 benchmark_df period <
              calculate_relative_strength stock_df benchmark_df period))) : ℚ) ≤
          (all_stocks_data.length : ℚ) := by
        exact_mod_cast List.countP_le_length _
      have hpos : (0 : ℚ) < (all_stocks_data.length : ℚ) := by
        exact_mod_cast List.length_pos.mpr hc
      rw [div_mul_eq_mul_div, div_le_iff₀ hpos]
      nlinarith

set_option maxHeartbeats 2000000 in
/-- C4: any setup the per-stock scan returns has between `min_legs = 3` and
5 legs and a stored total base depth of at most 15 (the default
`final_base_depth_max` of 0.15 times 100); and when the extracted legs or
raw base depth violate those bounds no setup is returned.  The upper leg
bound comes from the extractor itself, which never accepts more than 5
legs. -/
theorem scan_stock_setup_bounds :
    (∀ (symbol : String) (df : Series) (info : Option StockInfo)
        (benchmark : Option Series) (s : VCPSetup),
        scan_stock symbol df info benchmark = some s →
        3 ≤ s.legs.length ∧ s.legs.length ≤ 5 ∧ s.total_base_depth ≤ 15) ∧
      ∀ (symbol : String) (df : Series) (info : Option StockInfo)
        (benchmark : Option Series),
        ((detect_vcp_legs df).1.length < min_legs ∨
          final_base_depth_max * 100 < (detect_vcp_legs df).2) →
        scan_stock symbol df info benchmark = none := by
  constructor
  · intro symbol df info benchmark s h
    simp only [scan_stock] at h
    split at h
    · exact Option.noConfusion h
    split at h
    · exact Option.noConfusion h
    split at h
    · exact Option.noConfusion h
    split at h
    · exact Option.noConfusion h
    split at h
    · exact Option.noConfusion h
    split at h
    · exact Option.noConfusion h
    split at h
    · exact Option.noConfusion h
    rename_i hlegs hdepth
    rw [Option.some.injEq] at h
    subst h
    refine ⟨?_, ?_, ?_⟩
    · show 3 ≤ (detect_vcp_legs df).1.length
      simp only [min_legs] at hlegs
      omega
    · show (detect_vcp_legs df).1.length ≤ 5
      exact detect_vcp_legs_length_le df
    · show pyRound (detect_vcp_legs df).2 2 ≤ 15
      simp only [final_base_depth_max] at hdepth
      have hle : (detect_vcp_legs df).2 ≤ 15 := by
        rw [not_lt] at hdepth
        linarith
      calc pyRound (detect_vcp_legs df).2 2 ≤ pyRound 15 2 := pyRound_mono 2 hle
        _ = 15 := pyRound_fifteen_two
  · intro symbol df info benchmark hviol
    simp only [scan_stock]
    split
    · rfl
    split
    · rfl
    split
    · rfl
    split
    · rfl
    split
    · rfl
    split
    · rfl
    split
    · rfl
    · rcases hviol with hv | hv
      all_goals exact absurd hv (by assumption)

/-- C4 witness: the scan accepts the synthetic series `c4df` and the
resulting setup `c4setup` satisfies the bounds; and on the swing-free series
`c10df` (0 extracted legs) the scan returns nothing. -/
theorem scan_stock_setup_bounds_witness :
    (3 ≤ c4setup.legs.length ∧ c4setup.legs.length ≤ 5 ∧ c4setup.total_base_depth ≤ 15) ∧
      scan_stock "X" c10df none none = none :=
  ⟨scan_stock_setup_bounds.1 "X" c4df none (some c4bm) c4setup (by decide),
    scan_stock_setup_bounds.2 "X" c10df none none (Or.inl (by decide))⟩

/-- C5: whenever the current close is at or below the trailing 100-bar high
(current bar excluded), the breakout condition check reports no breakout and
`find_breakout` returns no candidate. -/
theorem breakout_never_below_pivot (symbol : String) (df : Series) (info : Option StockInfo)
    (vcp_setup : Option VCPSetup)
    (h : negIdx (closes df) 1 ≤ maxD (ilocSlice (highs df) 101 1)) :
    (check_breakout_conditions df).1 = false ∧
      find_breakout symbol df info vcp_setup = none := by
  have hcheck : (check_breakout_conditions df).1 = false := by
    simp only [check_breakout_conditions]
    split
    · rfl
    · rfl
  refine ⟨hcheck, ?_⟩
  simp only [find_breakout]
  split
  · rfl
  · simp [hcheck]

/-- C5 witness: on 101 identical bars the close equals the pivot and no
candidate is produced. -/
theorem breakout_never_below_pivot_witness :
    negIdx (closes c5df) 1 ≤ maxD (ilocSlice (highs c5df) 101 1) ∧
      find_breakout "X" c5df none none = none :=
  ⟨by decide, (breakout_never_below_pivot "X" c5df none none (by decide)).2⟩

/-- C6: a series shorter than 101 bars yields no result from either
detector: `find_breakout` fails its length gate directly, and `scan_stock`
either fails its own 100-bar gate or reaches the near-breakout filter, whose
101-bar requirement fails, regardless of how the liquidity filter decided. -/
theorem short_series_no_result (symbol : String) (df : Series) (info : Option StockInfo)
    (benchmark : Option Series) (vcp_setup : Option VCPSetup) (h : df.length < 101) :
    scan_stock symbol df info benchmark = none ∧
      find_breakout symbol df info vcp_setup = none := by
  constructor
  · have hup : (check_uptrend_near_breakout df).1 = false := by
      simp only [check_uptrend_near_breakout]
      rw [if_pos h]
    simp only [scan_stock]
    split
    · rfl
    · by_cases hl :
        (check_liquidity_filter df info (scan_stock_rs_percentile df benchmark)).1 <;>
        simp [hl, hup]
  · simp only [find_breakout]
    rw [if_pos h]

/-- C6 witness: a 50-bar series produces no result from either path. -/
theorem short_series_no_result_witness :
    c6df.length < 101 ∧ scan_stock "X" c6df none none = none ∧
      find_breakout "X" c6df none none = none :=
  ⟨by decide, (short_series_no_result "X" c6df none none none (by decide)).1,
    (short_series_no_result "X" c6df none none none (by decide)).2⟩

/-- C8: with at least 101 bars and a non-positive 20-bar volume SMA one bar
back, the breakout check reports no breakout: when the close clears the
pivot, the relative volume falls back to the explicit value 0 (instead of a
division by zero) and fails the threshold test; when it does not, the check
already failed on the pivot comparison. -/
theorem breakout_zero_volume_sma (df : Series) (_h101 : 101 ≤ df.length)
    (hsma : rollMeanNeg (volumes df) 20 2 ≤ 0) :
    (check_breakout_conditions df).1 = false := by
  simp only [check_breakout_conditions]
  split
  · rfl
  split
  · rfl
  · rw [if_neg (not_lt.mpr hsma),
      if_pos (show (0 : ℚ) < relative_volume_threshold by norm_num [relative_volume_threshold])]

/-- C8 witness: 101 bars of zero volume whose final close clears the pivot:
the volume SMA one bar back is 0 and the check fails through the fallback. -/
theorem breakout_zero_volume_sma_witness :
    101 ≤ c8df.length ∧ rollMeanNeg (volumes c8df) 20 2 ≤ 0 ∧
      negIdx (closes c8df) 1 > maxD (ilocSlice (highs c8df) 101 1) ∧
      (check_breakout_conditions c8df).1 = false :=
  ⟨by decide, by decide, by decide, breakout_zero_volume_sma c8df (by decide) (by decide)⟩

/-- C9: with no fundamental-info record the liquidity filter never tests the
market-capitalization floor — for a series of at least 20 bars it passes
exactly when the close is above the 20-bar SMA and the RS percentile is at
least the configured minimum — while any present record whose (defaulted)
market capitalization is below the floor makes the filter fail outright. -/
theorem check_liquidity_filter_no_info :
    (∀ (df : Series) (rs_percentile : ℚ), 20 ≤ df.length →
        ((check_liquidity_filter df none rs_percentile).1 = true ↔
          (listMean (lastN (closes df) 20) < negIdx (closes df) 1 ∧
            rs_percentile_min ≤ rs_percentile))) ∧
      ∀ (df : Series) (info : StockInfo) (rs_percentile : ℚ),
        info.marketCap.getD 0 < min_market_cap →
        (check_liquidity_filter df (some info) rs_percentile).1 = false := by
  constructor
  · intro df rs_percentile h20
    have hlen : ¬((closes df).length < 20) := by
      simp only [closes, List.length_map]
      omega
    simp only [check_liquidity_filter, liquidity_after_mcap, smaLastOpt, if_neg hlen]
    by_cases hsma : negIdx (closes df) 1 ≤ listMean (lastN (closes df) 20)
    · constructor
      · intro htrue
        simp [hsma] at htrue
      · intro hcl
        exact absurd hcl.1 (not_lt.mpr hsma)
    · by_cases hrs : rs_percentile < rs_percentile_min
      · constructor
        · intro htrue
          simp [hsma, hrs] at htrue
        · intro hcl
          exact absurd hcl.2 (not_le.mpr hrs)
      · simp [hsma, hrs]
        exact ⟨lt_of_not_le hsma, le_of_not_lt hrs⟩
  · intro df info rs_percentile hmc
    simp only [check_liquidity_filter, if_pos hmc]

/-- C9 witness: on a 20-bar rising series with RS percentile 80 the filter
passes without an info record, and fails once a record with market
capitalization 0 is attached. -/
theorem check_liquidity_filter_no_info_witness :
    20 ≤ c9df.length ∧ (check_liquidity_filter c9df none 80).1 = true ∧
      (check_liquidity_filter c9df (some ⟨some 0, none⟩) 80).1 = false :=
  ⟨by decide,
    (check_liquidity_filter_no_info.1 c9df 80 (by decide)).mpr
      ⟨by decide, by norm_num [rs_percentile_min]⟩,
    check_liquidity_filter_no_info.2 c9df ⟨some 0, none⟩ 80
      (by norm_num [min_market_cap])⟩
